import Mathlib

/-!
Verification of the FocusLens attentiveness classifier and session
lifecycle, shallowly embedded from the repository's TypeScript sources.

The classifier (`analyzeAttentiveness`) is embedded from
`src/src/components/FocusMonitor.tsx`; the session controller handlers
(`handleConsentApproved`, `handleConsentDeclined`, `handleStartSession`,
`handleEndSession`, `handleResetSession`) are embedded from the `Index`
page component (`src/unnamed/part_001`).

Numbers are modelled as exact rationals (`ℚ`); timestamps as `Int`
milliseconds; `Math.floor` of a millisecond difference divided by 1000
becomes flooring integer division (`Int.fdiv`).
-/

namespace FocusLens

/-- The three attentiveness states of `FocusMonitor.tsx`
(`'attentive' | 'distracted' | 'unknown'`). -/
inductive AttentivenessState
  | attentive
  | distracted
  | unknown
deriving DecidableEq, Repr

/-- A published reading: state plus human-readable description,
the pair of React states `attentivenessState` / `attentivenessDescription`. -/
structure AttentivenessReading where
  state : AttentivenessState
  description : String
deriving DecidableEq, Repr

/-- Telemetry snapshot `focusStats` consumed by the classifier.  Each
field is optional: `none` models an absent/undefined field, matching the
`|| 0` guards in the source. -/
structure FocusStats where
  attentionScore : Option ℚ
  posture : Option ℚ
  timeDistracted : Option ℚ
deriving DecidableEq, Repr

/-- The JavaScript `x || 0` fallback on a numeric field: an absent value
and the falsy number `0` both become `0`; every other number is kept. -/
def orZero : Option ℚ → ℚ
  | none => 0
  | some x => if x = 0 then 0 else x

/-- The four fixed engagement phrases of the attentive branch. -/
def attentiveDescriptions : List String :=
  ["Engaged eye contact maintained",
   "Active listening indicators",
   "Focused facial orientation",
   "Attention signals detected"]

/-- The four fixed phrases of the distracted branch. -/
def distractionDescriptions : List String :=
  ["Attention appears elsewhere",
   "Limited engagement signals",
   "Focus wavering",
   "Attention needs refocusing"]

/-- `analyzeAttentiveness` from `FocusMonitor.tsx` (lines 43-98).  The
source's `Math.floor(Math.random() * descriptions.length)` draw is
modelled by the injected index `rand`, reduced modulo the list length 4;
it is consumed only inside the description branches. -/
def analyzeAttentiveness (stats : FocusStats) (rand : Nat) : AttentivenessReading :=
  let score := orZero stats.attentionScore
  let posture := orZero stats.posture
  let timeDistracted := orZero stats.timeDistracted
  let attentivenessScore := score * 0.6 + posture * 0.4
  if attentivenessScore > 0.65 then
    let description :=
      if score > 0.8 then "Strong engagement detected"
      else if posture > 0.8 then "Optimal listening posture"
      else attentiveDescriptions.getD (rand % 4) ""
    ⟨.attentive, description⟩
  else if attentivenessScore < 0.4 ∨ timeDistracted > 5 then
    let description :=
      if score < 0.3 then "Limited screen focus detected"
      else if posture < 0.3 then "Posture indicates disengagement"
      else if timeDistracted > 5 then "Distracted for " ++ toString timeDistracted ++ "s"
      else distractionDescriptions.getD (rand % 4) ""
    ⟨.distracted, description⟩
  else
    ⟨.unknown, "Processing attention patterns..."⟩

theorem orZero_some (x : ℚ) : orZero (some x) = x := by
  unfold orZero
  split <;> simp_all

theorem orZero_none : orZero none = 0 := rfl

/-- The state component of a classification of present telemetry,
characterised by the two threshold tests of the source. -/
theorem analyzeAttentiveness_state (a p t : ℚ) (r : Nat) :
    (analyzeAttentiveness ⟨some a, some p, some t⟩ r).state =
      if a * 0.6 + p * 0.4 > 0.65 then .attentive
      else if a * 0.6 + p * 0.4 < 0.4 ∨ t > 5 then .distracted
      else .unknown := by
  simp only [analyzeAttentiveness, orZero_some]
  split_ifs <;> rfl

/-- One tick of the monitoring effect in `FocusMonitor.tsx`: the pair of
React states published by the component. -/
structure MonitorState where
  attentivenessState : AttentivenessState
  attentivenessDescription : String
deriving DecidableEq, Repr

/-- One 500 ms tick of the `FocusMonitor` effect (lines 35-119).  The
effect body returns without installing the interval when `isActive`,
`facingCamera` or `webcamReady` is false, or when the video element is
absent, so on such a tick the published state is left untouched;
otherwise `analyzeAttentiveness` runs and its reading is published. -/
def monitorTick (isActive facingCamera webcamReady videoPresent : Bool)
    (stats : FocusStats) (rand : Nat) (m : MonitorState) : MonitorState :=
  if isActive && facingCamera && webcamReady && videoPresent then
    let reading := analyzeAttentiveness stats rand
    ⟨reading.state, reading.description⟩
  else
    m

/-- Running a whole sequence of ticks under fixed activation flags; each
list element is the telemetry snapshot and random draw of one tick. -/
def monitorRun (isActive facingCamera webcamReady videoPresent : Bool)
    (ticks : List (FocusStats × Nat)) (m : MonitorState) : MonitorState :=
  ticks.foldl
    (fun acc tick => monitorTick isActive facingCamera webcamReady videoPresent tick.1 tick.2 acc)
    m

/-- Argument record handed to the summary generator by `handleEndSession`:
`{duration, averageFocus, timeDistracted, transcription}`. -/
structure SummaryInput where
  duration : Int
  averageFocus : ℚ
  timeDistracted : ℚ
  transcription : String
deriving DecidableEq, Repr

/-- Modelled from the spec: `generateSessionSummary`
(`src/utils/reportGenerator`) is not under `src/`; the spec treats the
summary as an opaque structure passed through unmodified, so the model
keeps the generator's argument record as the summary value. -/
abbrev SessionSummary := SummaryInput

/-- Modelled from the spec: passthrough summary generation (the external
collaborator `generate(...) -> SessionSummary`, opaque to this core). -/
def generateSessionSummary (input : SummaryInput) : SessionSummary := input

/-- The React state of the `Index` page (`src/unnamed/part_001`):
`hasConsent`, `isRecording`, `sessionComplete`, `sessionStartTime`,
`sessionSummary`, plus two pieces of instrumentation — `webcamActive`
mirrors the acquired/released webcam collaborator, and `generatorCalls`
counts invocations of the summary generator. -/
structure SessionState where
  hasConsent : Option Bool
  isRecording : Bool
  sessionComplete : Bool
  sessionStartTime : Option Int
  sessionSummary : Option SessionSummary
  webcamActive : Bool
  generatorCalls : Nat
deriving DecidableEq, Repr

/-- Initial `useState` values of the `Index` page. -/
def initialState : SessionState :=
  ⟨none, false, false, none, none, false, 0⟩

/-- The spec's session status enum. -/
inductive SessionStatus
  | awaitingConsent
  | consentDeclined
  | ready
  | recording
  | complete
deriving DecidableEq, Repr

/-- The session status abstraction over the page's boolean state:
recording while `isRecording`, complete once a recording has finished
(`sessionComplete`), otherwise determined by the consent answer. -/
def status (s : SessionState) : SessionStatus :=
  if s.isRecording then .recording
  else if s.sessionComplete then .complete
  else
    match s.hasConsent with
    | none => .awaitingConsent
    | some false => .consentDeclined
    | some true => .ready

/-- `handleConsentApproved` (part_001 lines 28-43): awaits the webcam
acquisition collaborator (modelled by the boolean `success`); on success
sets `hasConsent` to true, on failure only shows a toast and changes no
state. -/
def handleConsentApproved (success : Bool) (s : SessionState) : SessionState :=
  if success then
    { s with hasConsent := some true, webcamActive := true }
  else
    s

/-- `handleConsentDeclined` (part_001 lines 46-52): records the explicit
decline. -/
def handleConsentDeclined (s : SessionState) : SessionState :=
  { s with hasConsent := some false }

/-- `handleStartSession` (part_001 lines 55-63): unconditionally starts
recording, stamps the start time, clears the completion flag.  Note that
it does not clear `sessionSummary`. -/
def handleStartSession (now : Int) (s : SessionState) : SessionState :=
  { s with isRecording := true, sessionStartTime := some now, sessionComplete := false }

/-- `handleEndSession` (part_001 lines 66-91): no-op unless recording;
otherwise computes the floored duration in seconds, invokes the summary
generator with `{duration, averageFocus, timeDistracted, transcription}`,
stores the summary, stops recording, marks the session complete and
releases the webcam.  `attentionScore` and `timeDistracted` are the
latest telemetry values, `transcription` the captured transcript. -/
def handleEndSession (now : Int) (attentionScore timeDistracted : ℚ)
    (transcription : String) (s : SessionState) : SessionState :=
  if !s.isRecording then
    s
  else
    let duration : Int :=
      match s.sessionStartTime with
      | some startedAt => (now - startedAt).fdiv 1000
      | none => 0
    let summary := generateSessionSummary ⟨duration, attentionScore, timeDistracted, transcription⟩
    { s with sessionSummary := some summary,
             isRecording := false,
             sessionComplete := true,
             webcamActive := false,
             generatorCalls := s.generatorCalls + 1 }

/-- `handleResetSession` (part_001 lines 94-97): unconditionally clears
the completion flag and the summary. -/
def handleResetSession (s : SessionState) : SessionState :=
  { s with sessionComplete := false, sessionSummary := none }

/-- The spec's data-model invariant: the summary is non-null exactly in
the `Complete` status. -/
def Inv (s : SessionState) : Prop :=
  s.sessionSummary ≠ none ↔ status s = .complete

instance (s : SessionState) : Decidable (Inv s) := by
  unfold Inv
  infer_instance

/-- States reachable from the initial state by the four controller
operations, where `startSession` is only invoked outside `Complete`
(the one restriction the stale-summary behaviour of
`handleStartSession` forces). -/
inductive ReachableNR : SessionState → Prop
  | init : ReachableNR initialState
  | consent (b : Bool) {s : SessionState} :
      ReachableNR s → ReachableNR (handleConsentApproved b s)
  | decline {s : SessionState} :
      ReachableNR s → ReachableNR (handleConsentDeclined s)
  | start (now : Int) {s : SessionState} :
      ReachableNR s → status s ≠ .complete → ReachableNR (handleStartSession now s)
  | finish (now : Int) (a td : ℚ) (tr : String) {s : SessionState} :
      ReachableNR s → ReachableNR (handleEndSession now a td tr s)
  | reset {s : SessionState} :
      ReachableNR s → ReachableNR (handleResetSession s)

/-- A state abstraction helper: the status is `recording` exactly when
the `isRecording` flag is set. -/
theorem status_recording (s : SessionState) : status s = .recording ↔ s.isRecording = true := by
  rcases s with ⟨hc, rec, comp, st, sum, w, g⟩
  cases rec <;> cases comp <;> rcases hc with _ | b <;> (try cases b) <;> simp [status]

/-- A concrete recording state: consent granted, then a session started
at time 0. -/
def startedState : SessionState :=
  handleStartSession 0 (handleConsentApproved true initialState)

/-- A concrete completed state: the session above ended at 5000 ms with
attention 1/2, 3 s distracted and transcript "notes". -/
def sampleCompleteState : SessionState :=
  handleEndSession 5000 (1/2) 3 "notes" startedState

/-- C1 counterexample: at `attentionScore = 0.9`, `posture = 0.9`,
`timeDistracted = 6` the classifier returns `attentive`, not
`distracted` — the claimed unconditional override does not hold, because
the `timeDistracted > 5` test sits in the else-if branch below the
`weighted > 0.65` test. -/
theorem claim_C1_counterexample :
    (analyzeAttentiveness ⟨some 0.9, some 0.9, some 6⟩ 0).state = .attentive
    ∧ (analyzeAttentiveness ⟨some 0.9, some 0.9, some 6⟩ 0).state ≠ .distracted := by
  have h : (analyzeAttentiveness ⟨some 0.9, some 0.9, some 6⟩ 0).state = .attentive := by
    rw [analyzeAttentiveness_state]; norm_num
  exact ⟨h, by rw [h]; simp⟩

/-- C1 (amended): `timeDistracted > 5` forces `Distracted` only when the
weighted score does not already exceed the attentive bound, i.e. the
distraction override takes precedence over the low-bound rule within the
mixed-signal band, but `weighted > 0.65` yields `Attentive` even when
`timeDistracted > 5`. -/
theorem claim_C1_amended_override_within_band (a p t : ℚ) (r : Nat)
    (hw : ¬ (0.6 * a + 0.4 * p > 0.65)) (ht : t > 5) :
    (analyzeAttentiveness ⟨some a, some p, some t⟩ r).state = .distracted := by
  have hc : a * 0.6 + p * 0.4 = 0.6 * a + 0.4 * p := by ring
  rw [analyzeAttentiveness_state, hc, if_neg hw, if_pos (Or.inr ht)]

theorem claim_C1_witness :
    (analyzeAttentiveness ⟨some 0.5, some 0.5, some 6⟩ 0).state = .distracted :=
  claim_C1_amended_override_within_band 0.5 0.5 6 0 (by norm_num) (by norm_num)

/-- C2: for telemetry in range, the state is `Attentive` iff
`0.6*attentionScore + 0.4*posture > 0.65` (strict), otherwise
`Distracted` iff the weighted score is strictly below `0.4` or
`timeDistracted > 5`, otherwise `Unknown`; in particular a weighted
score of exactly `0.65` is not `Attentive`, and exactly `0.4` with
`timeDistracted ≤ 5` is `Unknown`. -/
theorem claim_C2_threshold_characterisation (a p t : ℚ) (r : Nat)
    (_ha0 : 0 ≤ a) (_ha1 : a ≤ 1) (_hp0 : 0 ≤ p) (_hp1 : p ≤ 1) (_ht : 0 ≤ t) :
    ((analyzeAttentiveness ⟨some a, some p, some t⟩ r).state = .attentive
        ↔ 0.6 * a + 0.4 * p > 0.65)
    ∧ ((analyzeAttentiveness ⟨some a, some p, some t⟩ r).state = .distracted
        ↔ (¬ (0.6 * a + 0.4 * p > 0.65) ∧ (0.6 * a + 0.4 * p < 0.4 ∨ t > 5)))
    ∧ ((analyzeAttentiveness ⟨some a, some p, some t⟩ r).state = .unknown
        ↔ (¬ (0.6 * a + 0.4 * p > 0.65) ∧ ¬ (0.6 * a + 0.4 * p < 0.4) ∧ ¬ (t > 5)))
    ∧ (0.6 * a + 0.4 * p = 0.65
        → (analyzeAttentiveness ⟨some a, some p, some t⟩ r).state ≠ .attentive)
    ∧ (0.6 * a + 0.4 * p = 0.4 → t ≤ 5
        → (analyzeAttentiveness ⟨some a, some p, some t⟩ r).state = .unknown) := by
  have hc : a * 0.6 + p * 0.4 = 0.6 * a + 0.4 * p := by ring
  rw [analyzeAttentiveness_state, hc]
  by_cases h1 : 0.6 * a + 0.4 * p > 0.65
  · rw [if_pos h1]
    refine ⟨by simp [h1], by simp [h1], by simp [h1], ?_, ?_⟩
    · intro he; rw [he] at h1; norm_num at h1
    · intro he _; rw [he] at h1; norm_num at h1
  · rw [if_neg h1]
    by_cases h2 : 0.6 * a + 0.4 * p < 0.4 ∨ t > 5
    · rw [if_pos h2]
      refine ⟨by simp [h1], by simp [h1, h2], ?_, by simp, ?_⟩
      · constructor
        · intro hcon; cases hcon
        · rintro ⟨-, hnl, hnt⟩
          rcases h2 with h2 | h2
          · exact absurd h2 hnl
          · exact absurd h2 hnt
      · intro he ht5
        rcases h2 with h2 | h2
        · rw [he] at h2; norm_num at h2
        · exact absurd h2 (not_lt.mpr ht5)
    · rw [if_neg h2]
      rw [not_or] at h2
      refine ⟨by simp [h1], by simp [h1, h2.1, h2.2], by simp [h1, h2.1, h2.2],
        by simp, fun _ _ => rfl⟩

theorem claim_C2_witness :
    (analyzeAttentiveness ⟨some 0.4, some 0.4, some 0⟩ 0).state = .unknown :=
  (claim_C2_threshold_characterisation 0.4 0.4 0 0 (by norm_num) (by norm_num)
    (by norm_num) (by norm_num) (by norm_num)).2.2.2.2 (by norm_num) (by norm_num)

/-- C3 counterexample: when the webcam acquisition collaborator fails,
`handleConsentApproved` leaves the session in `AwaitingConsent`
(`hasConsent` stays `null` and the consent screen is re-offered) — it
does not transition to `ConsentDeclined` as the claim states. -/
theorem claim_C3_counterexample :
    status (handleConsentApproved false initialState) = .awaitingConsent
    ∧ status (handleConsentApproved false initialState) ≠ .consentDeclined :=
  ⟨rfl, fun h => SessionStatus.noConfusion h⟩

/-- C3 (amended): webcam-acquisition failure during consent approval is
reported as a boolean outcome and never thrown (the handler is a total
function of that boolean); it leaves the session state entirely
unchanged — still `AwaitingConsent`, not an error state — while only an
explicit decline transitions to `ConsentDeclined`. -/
theorem claim_C3_amended_failure_no_transition :
    (∀ s, handleConsentApproved false s = s)
    ∧ (∀ s, status s = .awaitingConsent
        → status (handleConsentDeclined s) = .consentDeclined) := by
  constructor
  · intro s; rfl
  · intro s h
    rcases s with ⟨hc, rec, comp, st, sum, w, g⟩
    cases rec <;> cases comp <;> rcases hc with _ | b <;> (try cases b) <;>
      simp_all [status, handleConsentDeclined]

theorem claim_C3_witness :
    handleConsentApproved false initialState = initialState
    ∧ status (handleConsentDeclined initialState) = .consentDeclined :=
  ⟨claim_C3_amended_failure_no_transition.1 initialState,
   claim_C3_amended_failure_no_transition.2 initialState rfl⟩

/-- C4: on any invariant-respecting state, `handleResetSession` outside
`Complete` changes neither the status nor the summary; from `Complete`
it clears the summary, leaves the consent answer untouched, and (with
camera consent granted) transitions back to `Ready`. -/
theorem claim_C4_resetSession (s : SessionState) (h : Inv s) :
    (status s ≠ .complete →
        status (handleResetSession s) = status s
        ∧ (handleResetSession s).sessionSummary = s.sessionSummary)
    ∧ (status s = .complete →
        (handleResetSession s).sessionSummary = none
        ∧ (handleResetSession s).hasConsent = s.hasConsent
        ∧ (s.hasConsent = some true → status (handleResetSession s) = .ready)) := by
  rcases s with ⟨hc, rec, comp, st, sum, w, g⟩
  cases rec <;> cases comp <;> rcases hc with _ | b <;> (try cases b) <;>
    simp_all [Inv, status, handleResetSession]

theorem claim_C4_witness :
    status (handleResetSession sampleCompleteState) = .ready
    ∧ (handleResetSession sampleCompleteState).sessionSummary = none :=
  have hInv : Inv sampleCompleteState :=
    ⟨fun _ => rfl, fun _ => Option.some_ne_none _⟩
  ⟨((claim_C4_resetSession sampleCompleteState hInv).2 rfl).2.2 rfl,
   ((claim_C4_resetSession sampleCompleteState hInv).2 rfl).1⟩

/-- C5 counterexample: the summary-iff-Complete invariant is not
preserved by every operation — from a completed session (reached by
consent, start, end), `handleStartSession` flips the status to
`Recording` but keeps the stale summary, violating the invariant. -/
theorem claim_C5_counterexample :
    Inv sampleCompleteState ∧ ¬ Inv (handleStartSession 6000 sampleCompleteState) :=
  ⟨⟨fun _ => rfl, fun _ => Option.some_ne_none _⟩,
   fun hInv => SessionStatus.noConfusion (hInv.mp (Option.some_ne_none _))⟩

/-- C5 (amended): the invariant `summary ≠ null ↔ status = Complete`
holds initially and is preserved by both consent handlers, by
`handleEndSession` and by `handleResetSession` from any state satisfying
it, and by `handleStartSession` from any such state whose status is not
`Complete`; consequently it holds in every state reachable when
`startSession` is never invoked from `Complete` (the source's
`handleStartSession` retains the stale summary, so invoking it from
`Complete` breaks the invariant). -/
theorem claim_C5_amended_invariant :
    Inv initialState
    ∧ (∀ b s, Inv s → Inv (handleConsentApproved b s))
    ∧ (∀ s, Inv s → Inv (handleConsentDeclined s))
    ∧ (∀ now s, Inv s → status s ≠ .complete → Inv (handleStartSession now s))
    ∧ (∀ now a td tr s, Inv s → Inv (handleEndSession now a td tr s))
    ∧ (∀ s, Inv s → Inv (handleResetSession s))
    ∧ (∀ s, ReachableNR s → Inv s) := by
  have hinit : Inv initialState := by simp [Inv, initialState, status]
  have hcons : ∀ b s, Inv s → Inv (handleConsentApproved b s) := by
    intro b s h
    cases b
    · exact h
    · rcases s with ⟨hc, rec, comp, st, sum, w, g⟩
      cases rec <;> cases comp <;> rcases hc with _ | b <;> (try cases b) <;>
        simp_all [Inv, status, handleConsentApproved]
  have hdec : ∀ s, Inv s → Inv (handleConsentDeclined s) := by
    intro s h
    rcases s with ⟨hc, rec, comp, st, sum, w, g⟩
    cases rec <;> cases comp <;> rcases hc with _ | b <;> (try cases b) <;>
      simp_all [Inv, status, handleConsentDeclined]
  have hstart : ∀ now s, Inv s → status s ≠ .complete → Inv (handleStartSession now s) := by
    intro now s h hne
    rcases s with ⟨hc, rec, comp, st, sum, w, g⟩
    cases rec <;> cases comp <;> rcases hc with _ | b <;> (try cases b) <;>
      simp_all [Inv, status, handleStartSession]
  have hend : ∀ now a td tr s, Inv s → Inv (handleEndSession now a td tr s) := by
    intro now a td tr s h
    rcases s with ⟨hc, rec, comp, st, sum, w, g⟩
    cases rec
    · exact h
    · exact ⟨fun _ => rfl, fun _ => Option.some_ne_none _⟩
  have hreset : ∀ s, Inv s → Inv (handleResetSession s) := by
    intro s _
    rcases s with ⟨hc, rec, comp, st, sum, w, g⟩
    refine ⟨fun hne => absurd rfl hne, fun hst => ?_⟩
    cases rec
    · rcases hc with _ | b
      · exact SessionStatus.noConfusion hst
      · cases b <;> exact SessionStatus.noConfusion hst
    · exact SessionStatus.noConfusion hst
  refine ⟨hinit, hcons, hdec, hstart, hend, hreset, ?_⟩
  intro s hr
  induction hr with
  | init => exact hinit
  | consent b hr ih => exact hcons b _ ih
  | decline hr ih => exact hdec _ ih
  | start now hr hne ih => exact hstart now _ ih hne
  | finish now a td tr hr ih => exact hend now a td tr _ ih
  | reset hr ih => exact hreset _ ih

theorem claim_C5_witness :
    Inv (handleEndSession 5000 (1/2) 3 "notes"
      (handleStartSession 0 (handleConsentApproved true initialState))) :=
  claim_C5_amended_invariant.2.2.2.2.2.2 _
    (ReachableNR.finish 5000 (1/2) 3 "notes"
      (ReachableNR.start 0 (ReachableNR.consent true ReachableNR.init) (by decide)))

/-- C6: `handleEndSession` outside `Recording` is a no-op (the whole
state, including the generator-call count, is unchanged); from
`Recording` with start time `startedAt` it stores as summary the result
of the generator applied to exactly
`{duration = ⌊(now - startedAt)/1000⌋, averageFocus, timeDistracted,
transcription}`, transitions to `Complete`, releases the webcam, and
invokes the generator exactly once. -/
theorem claim_C6_endSession (now : Int) (a td : ℚ) (tr : String) (s : SessionState) :
    (status s ≠ .recording → handleEndSession now a td tr s = s)
    ∧ (∀ startedAt : Int, status s = .recording → s.sessionStartTime = some startedAt →
        (handleEndSession now a td tr s).sessionSummary
          = some (generateSessionSummary ⟨(now - startedAt).fdiv 1000, a, td, tr⟩)
        ∧ status (handleEndSession now a td tr s) = .complete
        ∧ (handleEndSession now a td tr s).webcamActive = false
        ∧ (handleEndSession now a td tr s).generatorCalls = s.generatorCalls + 1) := by
  have hrec := status_recording s
  constructor
  · intro h
    have hfalse : s.isRecording = false := by
      cases hh : s.isRecording
      · rfl
      · exact absurd (hrec.mpr hh) h
    simp [handleEndSession, hfalse]
  · intro t0 h hst
    have hR : s.isRecording = true := hrec.mp h
    simp [handleEndSession, hR, hst, status, generateSessionSummary]

theorem claim_C6_witness :
    (handleEndSession 5500 (3/4) 2 "x" startedState).sessionSummary
      = some (generateSessionSummary ⟨(5500 - 0 : Int).fdiv 1000, 3/4, 2, "x"⟩)
    ∧ status (handleEndSession 5500 (3/4) 2 "x" startedState) = .complete :=
  ⟨((claim_C6_endSession 5500 (3/4) 2 "x" startedState).2 0 rfl rfl).1,
   ((claim_C6_endSession 5500 (3/4) 2 "x" startedState).2 0 rfl rfl).2.1⟩

/-- C7: the three reference scenarios — (0.9, 0.9, 0) is `Attentive`
with "Strong engagement detected", (0.2, 0.2, 0) is `Distracted` with
"Limited screen focus detected", (0.5, 0.5, 0) is `Unknown` with
"Processing attention patterns..." — whatever the random draw. -/
theorem claim_C7_scenarios (r : Nat) :
    analyzeAttentiveness ⟨some 0.9, some 0.9, some 0⟩ r
      = ⟨.attentive, "Strong engagement detected"⟩
    ∧ analyzeAttentiveness ⟨some 0.2, some 0.2, some 0⟩ r
      = ⟨.distracted, "Limited screen focus detected"⟩
    ∧ analyzeAttentiveness ⟨some 0.5, some 0.5, some 0⟩ r
      = ⟨.unknown, "Processing attention patterns..."⟩ := by
  refine ⟨?_, ?_, ?_⟩ <;> (simp only [analyzeAttentiveness, orZero_some]; norm_num)

/-- C8: the state component of the classification is a deterministic
function of the telemetry snapshot alone — two ticks with the same
snapshot yield the same state whatever the random description source
produces. -/
theorem claim_C8_state_deterministic (stats : FocusStats) (r₁ r₂ : Nat) :
    (analyzeAttentiveness stats r₁).state = (analyzeAttentiveness stats r₂).state := by
  unfold analyzeAttentiveness
  dsimp only
  split_ifs <;> rfl

/-- C9: while monitoring is inactive or the camera is not ready or not
facing, a tick leaves the published reading untouched, and hence any
sequence of ticks — whatever telemetry they carry — leaves it
untouched. -/
theorem claim_C9_inactive_frozen (isActive facingCamera webcamReady videoPresent : Bool)
    (h : isActive = false ∨ facingCamera = false ∨ webcamReady = false) :
    (∀ stats rand m,
        monitorTick isActive facingCamera webcamReady videoPresent stats rand m = m)
    ∧ (∀ (ticks : List (FocusStats × Nat)) (m : MonitorState),
        monitorRun isActive facingCamera webcamReady videoPresent ticks m = m) := by
  have hcond : (isActive && facingCamera && webcamReady && videoPresent) = false := by
    rcases h with h | h | h <;> simp [h]
  have htick : ∀ stats rand m,
      monitorTick isActive facingCamera webcamReady videoPresent stats rand m = m := by
    intro stats rand m
    rw [monitorTick, hcond]
    rfl
  refine ⟨htick, ?_⟩
  intro ticks
  induction ticks with
  | nil => intro m; rfl
  | cons hd tl ih =>
    intro m
    rw [monitorRun, List.foldl_cons, htick hd.1 hd.2 m]
    exact ih m

theorem claim_C9_witness :
    monitorTick true false true true ⟨some 1, some 1, some 0⟩ 0 ⟨.unknown, "u"⟩
        = ⟨.unknown, "u"⟩
    ∧ monitorRun true false true true [(⟨some 1, some 1, some 0⟩, 0)] ⟨.unknown, "u"⟩
        = ⟨.unknown, "u"⟩ :=
  ⟨(claim_C9_inactive_frozen true false true true (Or.inr (Or.inl rfl))).1 _ _ _,
   (claim_C9_inactive_frozen true false true true (Or.inr (Or.inl rfl))).2 _ _⟩

/-- C10: an absent (or falsy) telemetry field is replaced by 0 before
classification — classifying a snapshot equals classifying it with every
field defaulted — the classifier is total, and the all-missing snapshot
has weighted score 0 and state `Distracted`. -/
theorem claim_C10_falsy_defaults (sa sp st : Option ℚ) (r : Nat) :
    analyzeAttentiveness ⟨sa, sp, st⟩ r
        = analyzeAttentiveness ⟨some (orZero sa), some (orZero sp), some (orZero st)⟩ r
    ∧ orZero none = 0 ∧ orZero (some 0) = 0
    ∧ orZero none * 0.6 + orZero none * 0.4 = 0
    ∧ (analyzeAttentiveness ⟨none, none, none⟩ r).state = .distracted := by
  refine ⟨?_, rfl, by simp [orZero], by simp [orZero], ?_⟩
  · simp only [analyzeAttentiveness, orZero_some]
  · have h0 : analyzeAttentiveness ⟨none, none, none⟩ r
        = analyzeAttentiveness ⟨some 0, some 0, some 0⟩ r := by
      simp only [analyzeAttentiveness, orZero_some, orZero_none]
    rw [h0, analyzeAttentiveness_state]
    norm_num

end FocusLens
